import Mathlib

/-!
Verification of the VibeStory story backend (`main.py`,
`app/services/cosmos_service.py`, `services/image_generation.py`).

The development shallowly embeds the Python code that the specification
describes:

* the output normalizer `normalize_story_output` together with its helper
  `_synthesize_title` (here `synthesizeTitle`), including a model of
  `json.loads` restricted to the behaviour the normalizer depends on
  (JSON values, Python truthiness for the `or` chains, and the
  `AttributeError` raised by `.strip()` on non-string values);
* the story-document builders of the two creation endpoints and the
  word-count field they persist;
* the Cosmos container, modelled as a list of documents (a partitioned
  list of `(partition key, document)` entries where partitioning
  matters), with the SQL queries issued by the code modelled by their
  documented semantics (`ORDER BY c.created_at DESC OFFSET .. LIMIT ..`,
  `SELECT VALUE COUNT(1)`);
* the delete, list and stats endpoint handlers of `main.py` and the
  create handlers, with the external calls that can complete (OpenAI
  completion, Cosmos operations) passed in as explicit outcomes;
  `main.py` never imports the image-generation service, so its call
  sites raise `NameError` and are modelled as the HTTP 500 they
  produce.

Machine strings are modelled as Lean `String`; Python `len` on `str`
counts code points, as does `String.length`.  Python `str.strip`,
`str.split`, `str.splitlines` and regex `\s` use Unicode whitespace;
`isPySpace` below lists that set.  `str.lower`/`capitalize`/`istitle`
are modelled on their ASCII behaviour via `Char.toLower`/`Char.toUpper`,
which is exact on all inputs appearing in the code's own constants.
-/

/-- Whitespace as recognised by Python's `str.strip`, `str.split`,
`str.splitlines`-adjacent stripping and the regex class `\s`. -/
def isPySpace (c : Char) : Bool :=
  c = ' ' || c = '\t' || c = '\n' || c = '\r' || c = '\x0b' || c = '\x0c' ||
  (0x1c ≤ c.toNat && c.toNat ≤ 0x1f) || c.toNat = 0x85 || c.toNat = 0xa0 ||
  c.toNat = 0x1680 || (0x2000 ≤ c.toNat && c.toNat ≤ 0x200a) ||
  c.toNat = 0x2028 || c.toNat = 0x2029 || c.toNat = 0x202f ||
  c.toNat = 0x205f || c.toNat = 0x3000

/-- `str.strip()` on a character list: drop whitespace from both ends. -/
def pyStripChars (l : List Char) : List Char :=
  ((l.dropWhile isPySpace).reverse.dropWhile isPySpace).reverse

/-- Python `s.strip()`. -/
def pyStrip (s : String) : String := String.mk (pyStripChars s.data)

/-- Non-emptiness of a string, via its character list (kernel friendly). -/
def strNonEmpty (s : String) : Bool :=
  match s.data with
  | [] => false
  | _ :: _ => true

/-- Helper for `pySplit`: accumulate the current token (reversed). -/
def pySplitAux : List Char → List Char → List String
  | [], acc => if acc.isEmpty then [] else [String.mk acc.reverse]
  | c :: rest, acc =>
    if isPySpace c then
      if acc.isEmpty then pySplitAux rest []
      else String.mk acc.reverse :: pySplitAux rest []
    else pySplitAux rest (c :: acc)

/-- Python `s.split()` (no argument): split on whitespace runs,
discarding empty tokens. -/
def pySplit (s : String) : List String := pySplitAux s.data []

/-- Line-break characters recognised by Python `str.splitlines`. -/
def isPyLineBreak (c : Char) : Bool :=
  c = '\n' || c = '\r' || c = '\x0b' || c = '\x0c' ||
  (0x1c ≤ c.toNat && c.toNat ≤ 0x1e) || c.toNat = 0x85 ||
  c.toNat = 0x2028 || c.toNat = 0x2029

/-- Helper for `pySplitlines`; `\r\n` counts as a single break and a
trailing break produces no empty final line. -/
def pySplitlinesAux : List Char → List Char → List String
  | [], acc => if acc.isEmpty then [] else [String.mk acc.reverse]
  | '\r' :: '\n' :: rest, acc => String.mk acc.reverse :: pySplitlinesAux rest []
  | c :: rest, acc =>
    if isPyLineBreak c then String.mk acc.reverse :: pySplitlinesAux rest []
    else pySplitlinesAux rest (c :: acc)

/-- Python `s.splitlines()`. -/
def pySplitlines (s : String) : List String := pySplitlinesAux s.data []

/-- Python `s.lower()` (ASCII model). -/
def pyLower (s : String) : String := String.mk (s.data.map Char.toLower)

/-- Python `s.capitalize()` (ASCII model): first character uppercased,
the rest lowercased. -/
def pyCapitalize (s : String) : String :=
  match s.data with
  | [] => ""
  | c :: rest => String.mk (Char.toUpper c :: rest.map Char.toLower)

/-- Character-list version of `str.startswith`. -/
def charsBegin : List Char → List Char → Bool
  | _, [] => true
  | [], _ :: _ => false
  | c :: cs, p :: ps => c = p && charsBegin cs ps

/-- Python `s.startswith(p)`. -/
def strBegins (s p : String) : Bool := charsBegin s.data p.data

/-- Python `s.endswith(p)`. -/
def strEnds (s p : String) : Bool := charsBegin s.data.reverse p.data.reverse

/-- Helper for `pyIstitle`: walk the characters tracking whether the
previous character was cased. -/
def pyIstitleAux : List Char → Bool → Bool → Bool
  | [], _, found => found
  | c :: rest, prevCased, found =>
    if c.isUpper then
      if prevCased then false else pyIstitleAux rest true true
    else if c.isLower then
      if prevCased then pyIstitleAux rest true found else false
    else pyIstitleAux rest false found

/-- Python `s.istitle()` (ASCII model): every cased run starts with an
uppercase letter, and at least one cased character exists. -/
def pyIstitle (s : String) : Bool := pyIstitleAux s.data false false

/-! ## Python/JSON values and a model of `json.loads`

`json.loads` is the only library call whose result the normalizer
inspects structurally.  `PyObj` models the Python values it can return;
`jsonLoads` parses per the `json` module's grammar (strict mode: raw
control characters in strings rejected, duplicate object keys
last-wins, `NaN`/`Infinity` accepted). Lone surrogate escapes, which
Python would keep as surrogate code units, are replaced by U+FFFD since
Lean `Char` cannot hold them; no behaviour proved below depends on
that corner. -/

/-- Python values produced by `json.loads`.  Numbers keep their lexeme:
the only thing the embedded code ever asks of a number is its
truthiness. -/
inductive PyObj where
  | pyNone
  | pyBool (b : Bool)
  | pyNum (lexeme : String)
  | pyStr (s : String)
  | pyList (xs : List PyObj)
  | pyDict (kvs : List (String × PyObj))

/-- A numeric lexeme is truthy unless all its digits (before any
exponent marker) are zero; `NaN`/`Infinity` lexemes are truthy. -/
def numLexTruthy : List Char → Bool
  | [] => false
  | c :: rest =>
    if c = 'e' || c = 'E' then false
    else if ('1' ≤ c && c ≤ '9') || c = 'N' || c = 'I' then true
    else numLexTruthy rest

/-- Python truthiness of the values `json.loads` can return. -/
def pyTruthy : PyObj → Bool
  | .pyNone => false
  | .pyBool b => b
  | .pyNum lexeme => numLexTruthy lexeme.data
  | .pyStr s => strNonEmpty s
  | .pyList xs => !xs.isEmpty
  | .pyDict kvs => !kvs.isEmpty

/-- `dict.get(k)` with default `None`; later bindings shadow earlier
ones, as in a Python dict built by repeated assignment. -/
def dictGet (kvs : List (String × PyObj)) (k : String) : PyObj :=
  (kvs.foldl (fun acc kv => if kv.1 = k then some kv.2 else acc) Option.none).getD .pyNone

/-- JSON insignificant whitespace. -/
def jsonSkipWs : List Char → List Char
  | [] => []
  | c :: rest =>
    if c = ' ' || c = '\t' || c = '\n' || c = '\r' then jsonSkipWs rest
    else c :: rest

/-- Value of a hex digit, by code point (48-57 digits, 97-102
lowercase, 65-70 uppercase). -/
def hexDigitValue (c : Char) : Option Nat :=
  let n := c.toNat
  if 48 ≤ n ∧ n ≤ 57 then some (n - 48)
  else if 97 ≤ n ∧ n ≤ 102 then some (n - 87)
  else if 65 ≤ n ∧ n ≤ 70 then some (n - 55)
  else Option.none

/-- Parse the rest of a JSON string (the opening quote already
consumed), strict mode. -/
def jsonStringAux : Nat → List Char → List Char → Option (String × List Char)
  | 0, _, _ => Option.none
  | _ + 1, [], _ => Option.none
  | f + 1, c :: rest, acc =>
    if c = '"' then some (String.mk acc.reverse, rest)
    else if c = '\\' then
      match rest with
      | [] => Option.none
      | e :: rest2 =>
        if e = '"' then jsonStringAux f rest2 ('"' :: acc)
        else if e = '\\' then jsonStringAux f rest2 ('\\' :: acc)
        else if e = '/' then jsonStringAux f rest2 ('/' :: acc)
        else if e = 'b' then jsonStringAux f rest2 ('\x08' :: acc)
        else if e = 'f' then jsonStringAux f rest2 ('\x0c' :: acc)
        else if e = 'n' then jsonStringAux f rest2 ('\n' :: acc)
        else if e = 'r' then jsonStringAux f rest2 ('\r' :: acc)
        else if e = 't' then jsonStringAux f rest2 ('\t' :: acc)
        else if e = 'u' then
          match rest2 with
          | h1 :: h2 :: h3 :: h4 :: rest3 =>
            match hexDigitValue h1, hexDigitValue h2, hexDigitValue h3, hexDigitValue h4 with
            | some a, some b, some c2, some d =>
              let code := ((a * 16 + b) * 16 + c2) * 16 + d
              if 0xd800 ≤ code && code ≤ 0xdbff then
                match rest3 with
                | '\\' :: 'u' :: g1 :: g2 :: g3 :: g4 :: rest4 =>
                  match hexDigitValue g1, hexDigitValue g2, hexDigitValue g3, hexDigitValue g4 with
                  | some a2, some b2, some c3, some d2 =>
                    let code2 := ((a2 * 16 + b2) * 16 + c3) * 16 + d2
                    if 0xdc00 ≤ code2 && code2 ≤ 0xdfff then
                      jsonStringAux f rest4
                        (Char.ofNat (0x10000 + (code - 0xd800) * 0x400 + (code2 - 0xdc00)) :: acc)
                    else jsonStringAux f rest3 ('\uFFFD' :: acc)
                  | _, _, _, _ => jsonStringAux f rest3 ('\uFFFD' :: acc)
                | _ => jsonStringAux f rest3 ('\uFFFD' :: acc)
              else if 0xdc00 ≤ code && code ≤ 0xdfff then
                jsonStringAux f rest3 ('\uFFFD' :: acc)
              else jsonStringAux f rest3 (Char.ofNat code :: acc)
            | _, _, _, _ => Option.none
          | _ => Option.none
        else Option.none
    else if c.toNat < 0x20 then Option.none
    else jsonStringAux f rest (c :: acc)

/-- Parse a JSON number lexeme (the `json` module's `NUMBER_RE`). -/
def jsonNumberRest (cs : List Char) : Option (String × List Char) :=
  let sgn : List Char × List Char :=
    match cs with
    | '-' :: r => (['-'], r)
    | _ => ([], cs)
  match sgn.2 with
  | [] => Option.none
  | c :: r =>
    if ¬ c.isDigit then Option.none
    else
      let ip : List Char × List Char :=
        if c = '0' then (['0'], r)
        else (c :: r.takeWhile Char.isDigit, r.dropWhile Char.isDigit)
      let fp : List Char × List Char :=
        match ip.2 with
        | '.' :: r2 =>
          let ds := r2.takeWhile Char.isDigit
          if ds.isEmpty then ([], ip.2)
          else ('.' :: ds, r2.dropWhile Char.isDigit)
        | _ => ([], ip.2)
      let ep : List Char × List Char :=
        match fp.2 with
        | e :: r3 =>
          if e = 'e' || e = 'E' then
            let se : List Char × List Char :=
              match r3 with
              | s :: r4 => if s = '+' || s = '-' then ([s], r4) else ([], r3)
              | [] => ([], r3)
            let ds := se.2.takeWhile Char.isDigit
            if ds.isEmpty then ([], fp.2)
            else (e :: (se.1 ++ ds), se.2.dropWhile Char.isDigit)
          else ([], fp.2)
        | [] => ([], fp.2)
      some (String.mk (sgn.1 ++ ip.1 ++ fp.1 ++ ep.1), ep.2)

mutual

/-- Parse one JSON value (leading whitespace allowed).  The fuel bounds
the call depth; every recursive call has consumed at least one input
character, so `input length + 2` fuel never runs out. -/
def jsonValue : Nat → List Char → Option (PyObj × List Char)
  | 0, _ => Option.none
  | f + 1, cs0 =>
    match jsonSkipWs cs0 with
    | [] => Option.none
    | c :: rest =>
      if c = '\x7b' then
        match jsonSkipWs rest with
        | '\x7d' :: rest2 => some (.pyDict [], rest2)
        | _ => jsonMembers f rest []
      else if c = '[' then
        match jsonSkipWs rest with
        | ']' :: rest2 => some (.pyList [], rest2)
        | _ => jsonElems f rest []
      else if c = '"' then
        match jsonStringAux (rest.length + 1) rest [] with
        | some (s, rest2) => some (.pyStr s, rest2)
        | Option.none => Option.none
      else if c = 't' && rest.take 3 = ['r', 'u', 'e'] then
        some (.pyBool true, rest.drop 3)
      else if c = 'f' && rest.take 4 = ['a', 'l', 's', 'e'] then
        some (.pyBool false, rest.drop 4)
      else if c = 'n' && rest.take 3 = ['u', 'l', 'l'] then
        some (.pyNone, rest.drop 3)
      else if c = 'N' && rest.take 2 = ['a', 'N'] then
        some (.pyNum "NaN", rest.drop 2)
      else if c = 'I' && rest.take 7 = ['n', 'f', 'i', 'n', 'i', 't', 'y'] then
        some (.pyNum "Infinity", rest.drop 7)
      else if c = '-' && rest.take 8 = ['I', 'n', 'f', 'i', 'n', 'i', 't', 'y'] then
        some (.pyNum "-Infinity", rest.drop 8)
      else
        match jsonNumberRest (c :: rest) with
        | some (lexeme, rest2) => some (.pyNum lexeme, rest2)
        | Option.none => Option.none

/-- Parse the members of a JSON object after its `{` (at least one
member expected; `{}` is handled by the caller). -/
def jsonMembers : Nat → List Char → List (String × PyObj) → Option (PyObj × List Char)
  | 0, _, _ => Option.none
  | f + 1, cs, acc =>
    match jsonSkipWs cs with
    | '"' :: rest =>
      match jsonStringAux (rest.length + 1) rest [] with
      | some (key, rest2) =>
        match jsonSkipWs rest2 with
        | ':' :: rest3 =>
          match jsonValue f rest3 with
          | some (v, rest4) =>
            match jsonSkipWs rest4 with
            | ',' :: rest5 => jsonMembers f rest5 ((key, v) :: acc)
            | '\x7d' :: rest5 => some (.pyDict ((key, v) :: acc).reverse, rest5)
            | _ => Option.none
          | Option.none => Option.none
        | _ => Option.none
      | Option.none => Option.none
    | _ => Option.none

/-- Parse the elements of a JSON array after its `[` (at least one
element expected; `[]` is handled by the caller). -/
def jsonElems : Nat → List Char → List PyObj → Option (PyObj × List Char)
  | 0, _, _ => Option.none
  | f + 1, cs, acc =>
    match jsonValue f cs with
    | some (v, rest) =>
      match jsonSkipWs rest with
      | ',' :: rest2 => jsonElems f rest2 (v :: acc)
      | ']' :: rest2 => some (.pyList (v :: acc).reverse, rest2)
      | _ => Option.none
    | Option.none => Option.none

end

/-- Model of Python `json.loads(s)`: `some v` on success, `none` for a
`JSONDecodeError` (including trailing data after the value). -/
def jsonLoads (s : String) : Option PyObj :=
  match jsonValue (s.length + 2) s.data with
  | some (v, rest) =>
    if (jsonSkipWs rest).isEmpty then some v else Option.none
  | Option.none => Option.none

/-! ## The output normalizer (`main.py` lines 87-145) -/

/-- `_GENERIC_TITLES` (`main.py` line 87). -/
def GENERIC_TITLES : List String := ["untitled", "story", "untitled story", "the story"]

/-- `title.lower() in _GENERIC_TITLES`. -/
def isGenericTitle (t : String) : Bool := GENERIC_TITLES.contains (pyLower t)

/-- `_synthesize_title(prompt, content, genre)` (`main.py` lines 89-97). -/
def synthesizeTitle (prompt content genre : String) : String :=
  if prompt ≠ "" ∧ prompt.length < 60 then
    pyStrip prompt
  else if content ≠ "" then
    if 3 ≤ ((pySplit content).take 10).length then
      String.intercalate " " ((pySplit content).take 10) ++ "..."
    else pyCapitalize genre ++ " Story"
  else pyCapitalize genre ++ " Story"

/-- `re.match(r"^```(?:json)?\s*(.+?)\s*```$", txt, DOTALL | IGNORECASE)`
followed by `.group(1).strip()` when it matches (`main.py` lines
106-108): the text must open with a fence (optionally tagged `json`,
case-insensitively), close with one, and hold at least one character in
between; the result is the in-between text stripped.  When the regex
does not match, the text is returned unchanged. -/
def fenceBody? (cs : List Char) : Option (List Char) :=
  let n := cs.length
  if 4 ≤ n && cs.drop (n - 3) = ['`', '`', '`'] then some (cs.take (n - 3))
  else Option.none

/-- Unwrap an optional markdown fence, per `fenceBody?`. -/
def unwrapFence (txt : String) : String :=
  let cs := txt.data
  if cs.take 3 = ['`', '`', '`'] then
    let rest := cs.drop 3
    if (rest.take 4).map Char.toLower = ['j', 's', 'o', 'n'] then
      match fenceBody? (rest.drop 4) with
      | some mid => String.mk (pyStripChars mid)
      | Option.none =>
        match fenceBody? rest with
        | some mid => String.mk (pyStripChars mid)
        | Option.none => txt
    else
      match fenceBody? rest with
      | some mid => String.mk (pyStripChars mid)
      | Option.none => txt
  else txt

/-- The Python `or`-chain `a or b or ""` over two looked-up values. -/
def pyOrChain2 (a b : PyObj) : PyObj :=
  if pyTruthy a then a else if pyTruthy b then b else .pyStr ""

/-- `.strip()` on the chain result: succeeds only on a `str`; on any
other (necessarily truthy) value Python raises `AttributeError`, which
the normalizer's `except Exception` turns into the plain-text path. -/
def stripAsStr : PyObj → Option String
  | .pyStr s => some (pyStrip s)
  | _ => Option.none

/-- `re.sub(r'^#+\s*', '', first)`: remove leading `#` markers and the
whitespace following them (`first` is already stripped, so the
whitespace removal is a no-op unless markers were removed). -/
def stripHeadingMarks (s : String) : String :=
  String.mk ((s.data.dropWhile (fun c => c = '#')).dropWhile isPySpace)

/-- The heading test of `main.py` line 138. -/
def isHeadingLine (first : String) : Bool :=
  strBegins first "#" || pyIstitle first ||
  strBegins (pyLower first) "chapter" || strBegins (pyLower first) "the "

/-- The non-blank lines of the text (`main.py` line 134). -/
def nonBlankLines (txt : String) : List String :=
  (pySplitlines txt).filter (fun l => strNonEmpty (pyStrip l))

/-- The plain-text branch of the normalizer (`main.py` lines 133-145). -/
def plainTextFallback (txt prompt genre : String) : String × String :=
  match nonBlankLines txt with
  | [] => (synthesizeTitle prompt txt genre, txt)
  | l0 :: rest =>
    let first := pyStrip l0
    if first.length < 100 ∧ isHeadingLine first = true then
      let cleaned := stripHeadingMarks first
      let remaining := pyStrip (String.intercalate "\n" rest)
      let contentSrc := if remaining = "" then txt else remaining
      let title :=
        if cleaned = "" ∨ isGenericTitle cleaned = true then
          synthesizeTitle prompt contentSrc genre
        else cleaned
      (title, contentSrc)
    else (synthesizeTitle prompt txt genre, txt)

/-- `normalize_story_output(raw, prompt, genre)` (`main.py` lines
99-145). -/
def normalize_story_output (raw prompt genre : String) : String × String :=
  if raw = "" then (synthesizeTitle prompt "" genre, "")
  else
    let txt := unwrapFence (pyStrip raw)
    if strBegins txt "\x7b" = true ∧ strEnds txt "\x7d" = true then
      match jsonLoads txt with
      | some (PyObj.pyDict kvs) =>
        match stripAsStr (pyOrChain2 (dictGet kvs "title") (dictGet kvs "story_title")),
              stripAsStr (pyOrChain2 (dictGet kvs "content") (dictGet kvs "story")) with
        | some title0, some body0 =>
          let body := if body0 = "" then txt else body0
          let title :=
            if title0 = "" ∨ isGenericTitle title0 = true then
              synthesizeTitle prompt body genre
            else title0
          (title, body)
        | _, _ => plainTextFallback txt prompt genre
      | _ => plainTextFallback txt prompt genre
    else plainTextFallback txt prompt genre

/-! ## Story documents and the creation endpoints (`main.py` lines 80-84,
445-504, 506-590) -/

/-- The story document persisted to Cosmos (union of the fields set by
the text and image creation handlers). -/
structure StoryDoc where
  id : String
  story_type : String
  title : String := ""
  content : String := ""
  genre : String := ""
  tone : String := ""
  length : String := ""
  prompt : Option String := Option.none
  image_filename : Option String := Option.none
  image_description : Option String := Option.none
  generated_image_filename : Option String := Option.none
  generated_image_meta : Option (String × String × String) := Option.none
  word_count : Nat := 0
  created_at : String := ""
deriving DecidableEq

/-- `StoryCreateRequest` (`main.py` lines 80-84): the pydantic request
model declares exactly these four fields. -/
structure StoryCreateRequest where
  prompt : String
  genre : String := "general"
  tone : String := "neutral"
  length : String := "medium"
deriving DecidableEq

/-- Attribute lookup on a `StoryCreateRequest` instance: only the four
declared fields resolve; any other name raises `AttributeError`
(modelled as `none`). -/
def requestAttr (r : StoryCreateRequest) (name : String) : Option PyObj :=
  if name = "prompt" then some (.pyStr r.prompt)
  else if name = "genre" then some (.pyStr r.genre)
  else if name = "tone" then some (.pyStr r.tone)
  else if name = "length" then some (.pyStr r.length)
  else Option.none

/-- The `story_doc` dict built by `create_story` (`main.py` lines
455-468); `new_id` and `created_at` stand for the fresh
`uuid`/timestamp. -/
def buildTextStoryDoc (req : StoryCreateRequest) (raw newId createdAt : String) : StoryDoc :=
  let tc := normalize_story_output raw req.prompt req.genre
  { id := newId, story_type := "text", prompt := some req.prompt,
    genre := req.genre, tone := req.tone, length := req.length,
    content := tc.2, title := tc.1,
    word_count := (pySplit tc.2).length, created_at := createdAt }

/-- The `story_doc` dict built by `create_story_from_image` (`main.py`
lines 540-554); the normalizer is called with `image_description or ""`
as the prompt argument. -/
def buildImageStoryDoc (imageFilename : String) (imageDescription : Option String)
    (theme tone length_ raw newId createdAt : String) : StoryDoc :=
  let tc := normalize_story_output raw (imageDescription.getD "") theme
  { id := newId, story_type := "image", image_filename := some imageFilename,
    image_description := imageDescription, genre := theme, tone := tone,
    length := length_, content := tc.2, title := tc.1,
    word_count := (pySplit tc.2).length, created_at := createdAt }

/-- The `generated_image` field of the creation response: `None`, the
success metadata, or an error dict carrying `error`, `error_type` and
optionally `user_friendly`.  The non-`absent` shapes transcribe the
dicts the handlers' image-generation blocks would build; those blocks
are unreachable in `main.py` (see `create_story` and
`create_story_from_image` below), so only `absent` is ever produced. -/
inductive ImageMeta where
  | absent
  | ok (filename style size quality : String)
  | failed (error errorType : String) (userFriendly : Option Bool)
deriving DecidableEq

/-- A creation endpoint's response: the success payload, or the
`HTTPException` raised by the handler's outermost `except`. -/
inductive CreateStoryResponse where
  | ok (story : StoryDoc) (generatedImage : ImageMeta)
  | httpError (status : Nat) (detail : String)
deriving DecidableEq

/-- `create_story` (`main.py` lines 445-504, the duplicate definition
of the handler for `POST /api/stories`).  `genOutcome` is the outcome
of the `generate_story_text` call and `_persistOk` the outcome of
`container.upsert_item` — logged and swallowed, so deliberately absent
from the result.  The handler reads `req.generate_image` (line 470),
which `StoryCreateRequest` does not declare: the attribute lookup
raises `AttributeError` and the outer `except Exception` answers HTTP
500.  Were the attribute to resolve truthy, the call to
`generate_story_image` (line 473) would raise `NameError` — `main.py`
never imports `generate_story_image`, `ContentPolicyError` or
`ImageGenerationError`, and `services/image_generation.py` does not
even parse (IndentationError at its line 129) — and evaluating
`except ContentPolicyError` (line 485) raises a further `NameError`,
again answered by the outer handler with HTTP 500. -/
def create_story (req : StoryCreateRequest) (genOutcome : Except String String)
    (_persistOk : Bool) (newId createdAt : String) : CreateStoryResponse :=
  match genOutcome with
  | .error _ => .httpError 500 "Story generation failed"
  | .ok raw =>
    let doc := buildTextStoryDoc req raw newId createdAt
    match requestAttr req "generate_image" with
    | Option.none => .httpError 500 "Story generation failed"
    | some v =>
      if pyTruthy v then .httpError 500 "Story generation failed"
      else .ok doc .absent

/-- `create_story_from_image` (`main.py` lines 506-590).  The
generation flags are genuine form parameters here, so no attribute
error occurs; but a truthy `generate_image` reaches the
`generate_story_image` call at line 559, which raises `NameError`
(the name is never imported in `main.py`, and
`services/image_generation.py` does not parse — IndentationError at
its line 129); evaluating `except ContentPolicyError` at line 571
raises a further `NameError`, which propagates to the outer
`except Exception` (line 588) and yields HTTP 500 — before any upsert.
With `generate_image` falsy the handler succeeds, and `_persistOk`
(the swallowed `upsert_item` outcome) does not influence the
response. -/
def create_story_from_image (imageFilename : String) (imageDescription : Option String)
    (theme length_ tone : String) (generateImage : Bool)
    (_imageStyle _imageSize _imageQuality : Option String)
    (genOutcome : Except String String)
    (_persistOk : Bool) (newId createdAt : String) : CreateStoryResponse :=
  match genOutcome with
  | .error _ => .httpError 500 "Image story generation failed"
  | .ok raw =>
    let doc := buildImageStoryDoc imageFilename imageDescription theme tone length_ raw newId createdAt
    if generateImage then .httpError 500 "Image story generation failed"
    else .ok doc .absent

/-! ## The store as a history of operations

The only container mutations anywhere in the repository are the
`upsert_item` calls of the creation handlers and the `delete_item`
calls of the delete handlers; no update-in-place operation exists.
`StoreStep`/`ReachableStore` capture exactly those mutations (upserts
of documents built by the creation handlers — with or without the
generated-image fields attached before persisting — and deletion by
id). -/

/-- Cosmos `upsert_item`: replaces the document with the same id, else
inserts. -/
def upsertDoc (store : List StoryDoc) (doc : StoryDoc) : List StoryDoc :=
  doc :: store.filter (fun d => d.id != doc.id)

/-- One store mutation performed by the application. -/
inductive StoreStep : List StoryDoc → List StoryDoc → Prop where
  | upsertText (s : List StoryDoc) (req : StoryCreateRequest) (raw newId createdAt : String) :
      StoreStep s (upsertDoc s (buildTextStoryDoc req raw newId createdAt))
  | upsertTextWithImage (s : List StoryDoc) (req : StoryCreateRequest)
      (raw newId createdAt fn st sz q : String) :
      StoreStep s (upsertDoc s
        { buildTextStoryDoc req raw newId createdAt with
            generated_image_filename := some fn, generated_image_meta := some (st, sz, q) })
  | upsertImage (s : List StoryDoc) (fn : String) (desc : Option String)
      (theme tone length_ raw newId createdAt : String) :
      StoreStep s (upsertDoc s (buildImageStoryDoc fn desc theme tone length_ raw newId createdAt))
  | upsertImageWithImage (s : List StoryDoc) (fn : String) (desc : Option String)
      (theme tone length_ raw newId createdAt gfn st sz q : String) :
      StoreStep s (upsertDoc s
        { buildImageStoryDoc fn desc theme tone length_ raw newId createdAt with
            generated_image_filename := some gfn, generated_image_meta := some (st, sz, q) })
  | deleteById (s : List StoryDoc) (storyId : String) :
      StoreStep s (s.filter (fun d => d.id != storyId))

/-- Stores reachable from the empty store through application
operations. -/
inductive ReachableStore : List StoryDoc → Prop where
  | empty : ReachableStore []
  | step {s t : List StoryDoc} : ReachableStore s → StoreStep s t → ReachableStore t

/-! ## Delete endpoint (`main.py` lines 607-657) -/

/-- An entry of the partitioned container: the partition-key value the
document is stored under, plus the document. -/
structure CosmosEntry where
  pk : String
  doc : StoryDoc
deriving DecidableEq

/-- `container.read_item(item=itemId, partition_key=pk)`: a point read
succeeds only for a document with that id stored under that partition
key. -/
def readItem (store : List CosmosEntry) (itemId pk : String) : Option StoryDoc :=
  (store.find? (fun e => e.doc.id == itemId && e.pk == pk)).map (fun e => e.doc)

/-- `container.delete_item(item=itemId, partition_key=pk)` on a store
where the item exists: remove it. -/
def removeItem (store : List CosmosEntry) (itemId pk : String) : List CosmosEntry :=
  store.filter (fun e => !(e.doc.id == itemId && e.pk == pk))

/-- Whether the `(id, partition key)` point exists. -/
def existsItem (store : List CosmosEntry) (itemId pk : String) : Bool :=
  (store.find? (fun e => e.doc.id == itemId && e.pk == pk)).isSome

/-- Response of `DELETE /api/stories/{story_id}`. -/
inductive DeleteOutcome where
  | ok (storyId : String) (deletedFiles : List String)
  | httpError (status : Nat) (detail : String)
deriving DecidableEq

/-- Best-effort removal of one associated file (`main.py` lines
624-643): if the path exists it is removed and recorded under the given
label. `fs` is the local filesystem, a set of paths. -/
def removeFileIfExists (fs : List String) (path label : String) :
    List String × List String :=
  if fs.contains path then (fs.erase path, [label]) else (fs, [])

/-- `delete_story` (`main.py` lines 607-657, the registered duplicate
of the handler).  The record is read with `partition_key=story_id` and
deleted with `partition_key=story_id`; `deleteRaises` models
`delete_item` raising (network or partition-key mismatch), which the
outer `except Exception` turns into HTTP 500.  Returns the response,
the container state and the filesystem state. -/
def delete_story (storyId : String) (container : Option (List CosmosEntry))
    (fs : List String) (deleteRaises : Bool) :
    DeleteOutcome × Option (List CosmosEntry) × List String :=
  match container with
  | Option.none => (.httpError 503 "Database not available", Option.none, fs)
  | some store =>
    match readItem store storyId storyId with
    | Option.none => (.httpError 404 "Story not found", some store, fs)
    | some story =>
      let s1 :=
        match story.image_filename with
        | some f => removeFileIfExists fs ("static/uploads/" ++ f) ("uploads/" ++ f)
        | Option.none => (fs, [])
      let s2 :=
        match story.generated_image_filename with
        | some f => removeFileIfExists s1.1 ("static/generated/" ++ f) ("generated/" ++ f)
        | Option.none => (s1.1, [])
      if deleteRaises then
        (.httpError 500 "Internal server error", some store, s2.1)
      else if existsItem store storyId storyId then
        (.ok storyId (s1.2 ++ s2.2), some (removeItem store storyId storyId), s2.1)
      else
        (.httpError 500 "Internal server error", some store, s2.1)

/-! ## List endpoint (`app/services/cosmos_service.py` lines 136-175,
`app/routes/stories.py` lines 145-163) and the `main.py` read paths -/

/-- Ordering used by `ORDER BY c.created_at DESC`: earlier in the
result means a later (or equal) timestamp. -/
def createdAtDescRel (a b : StoryDoc) : Prop := b.created_at ≤ a.created_at

instance : DecidableRel createdAtDescRel := fun a b =>
  inferInstanceAs (Decidable (b.created_at ≤ a.created_at))

instance : IsTotal StoryDoc createdAtDescRel :=
  ⟨fun a b => (le_total b.created_at a.created_at).imp id id⟩

instance : IsTrans StoryDoc createdAtDescRel :=
  ⟨fun _ _ _ h1 h2 => le_trans h2 h1⟩

/-- Model of the container query
`SELECT * FROM c ORDER BY c.created_at DESC`. -/
def sortByCreatedAtDesc (docs : List StoryDoc) : List StoryDoc :=
  List.insertionSort createdAtDescRel docs

/-- `CosmosService.get_stories(limit, offset)`: a
`SELECT VALUE COUNT(1)` for the total, then
`SELECT * FROM c ORDER BY c.created_at DESC OFFSET {offset} LIMIT {limit}`
for the page. -/
def cosmosGetStories (docs : List StoryDoc) (limit offset : Nat) :
    List StoryDoc × Nat :=
  (((sortByCreatedAtDesc docs).drop offset).take limit, docs.length)

/-- `StoriesListResponse` as returned by `GET /api/stories` of the
`app` router. -/
structure StoriesListResponse where
  success : Bool
  stories : List StoryDoc
  total : Nat
deriving DecidableEq

/-- The `app` router's `get_stories(limit, offset)` handler on a
reachable store. -/
def routeGetStories (docs : List StoryDoc) (limit offset : Nat) : StoriesListResponse :=
  let r := cosmosGetStories docs limit offset
  { success := true, stories := r.1, total := r.2 }

/-- A row of the stats query
`SELECT c.word_count, c.story_type FROM c`; either field may be absent
on a raw document. -/
structure StatsRow where
  word_count : Option Int
  story_type : Option String
deriving DecidableEq

/-- Response of `GET /api/stories/stats`: the success payload or the
`success: False` error payload. -/
inductive StatsResult where
  | ok (total text image : Nat) (avg_words : Int)
  | failed (error : String)
deriving DecidableEq

/-- `story_stats` (`main.py` lines 659-683).  The argument is the
outcome of the container interaction: `none` when the container client
is not initialised, `some (.error e)` when the query raises, and
`some (.ok rows)` for a successful query.  `int(total_words / total)`
truncates toward zero, as does `Int.tdiv`. -/
def story_stats (queryOutcome : Option (Except String (List StatsRow))) : StatsResult :=
  match queryOutcome with
  | Option.none => .ok 0 0 0 0
  | some (.error _) => .failed "stats query failed"
  | some (.ok items) =>
    let total := items.length
    let textCnt := (items.filter (fun i => i.story_type == some "text")).length
    let imgCnt := (items.filter (fun i => i.story_type == some "image")).length
    let totalWords : Int := (items.map (fun i => i.word_count.getD 0)).foldl (· + ·) 0
    let avg : Int := if total = 0 then 0 else Int.tdiv totalWords (Int.ofNat total)
    .ok total textCnt imgCnt avg

/-- Response of `GET /api/stories` in `main.py`: the success payload or
the `success: False` error payload. -/
inductive ListResult where
  | ok (stories : List StoryDoc)
  | failed (error : String)
deriving DecidableEq

/-- `get_stories` (`main.py` lines 291-304).  As in `story_stats`, the
argument is the container interaction's outcome. -/
def get_stories_v1 (queryOutcome : Option (Except String (List StoryDoc))) : ListResult :=
  match queryOutcome with
  | Option.none => .ok []
  | some (.error _) => .failed "Failed to retrieve stories"
  | some (.ok items) => .ok items

/-! ## Helper lemmas -/

theorem strData_append (s t : String) : (s ++ t).data = s.data ++ t.data := rfl

theorem strAppend_ne_empty_right (s t : String) (h : t.data ≠ []) : s ++ t ≠ "" := by
  intro he
  apply h
  have hd : (s ++ t).data = ([] : List Char) := by rw [he]
  rw [strData_append] at hd
  exact (List.append_eq_nil.mp hd).2

/-- `_synthesize_title` returns a non-empty string unless the prompt is
a non-empty all-whitespace string shorter than 60 characters. -/
theorem synthesizeTitle_ne_empty (p c g : String)
    (h : ¬(p ≠ "" ∧ p.length < 60 ∧ pyStrip p = "")) :
    synthesizeTitle p c g ≠ "" := by
  unfold synthesizeTitle
  split
  case isTrue hp =>
    intro he
    exact h ⟨hp.1, hp.2, he⟩
  case isFalse =>
    split
    case isTrue =>
      split
      case isTrue => exact strAppend_ne_empty_right _ "..." (by decide)
      case isFalse => exact strAppend_ne_empty_right _ " Story" (by decide)
    case isFalse => exact strAppend_ne_empty_right _ " Story" (by decide)

/-- The plain-text branch returns a non-empty title under the same
proviso on the prompt. -/
theorem plainTextFallback_fst_ne_empty (txt p g : String)
    (h : ¬(p ≠ "" ∧ p.length < 60 ∧ pyStrip p = "")) :
    (plainTextFallback txt p g).1 ≠ "" := by
  unfold plainTextFallback
  cases hnl : nonBlankLines txt with
  | nil => exact synthesizeTitle_ne_empty p txt g h
  | cons l0 rest =>
    simp only
    split
    case isTrue =>
      split
      case isTrue => exact synthesizeTitle_ne_empty _ _ _ h
      case isFalse hguard =>
        intro he
        exact hguard (Or.inl he)
    case isFalse => exact synthesizeTitle_ne_empty p txt g h

/-- Claim C2 (corrected): `normalize_story_output` is total — in this
embedding every run returns a `(title, content)` pair — and the title
is non-empty for every raw text, prompt and genre, PROVIDED the prompt
is not a non-empty all-whitespace string shorter than 60 characters;
for such prompts `_synthesize_title` returns `prompt.strip()`, the
empty string. -/
theorem c2_normalizer_title_nonempty (raw prompt genre : String)
    (h : ¬(prompt ≠ "" ∧ prompt.length < 60 ∧ pyStrip prompt = "")) :
    (normalize_story_output raw prompt genre).1 ≠ "" := by
  unfold normalize_story_output
  split
  case isTrue => exact synthesizeTitle_ne_empty _ _ _ h
  case isFalse =>
    dsimp only
    split
    case isTrue =>
      split
      case _ kvs heq =>
        split
        case _ title0 body0 h1 h2 =>
          simp only
          split
          case isTrue => exact synthesizeTitle_ne_empty _ _ _ h
          case isFalse hguard =>
            intro he
            exact hguard (Or.inl he)
        case _ => exact plainTextFallback_fst_ne_empty _ _ _ h
      case _ => exact plainTextFallback_fst_ne_empty _ _ _ h
    case isFalse => exact plainTextFallback_fst_ne_empty _ _ _ h

/-- Claim C2, counterexample to the claim as stated: for the prompt
`" "` (non-empty, all whitespace, shorter than 60 characters) the
normalizer returns the empty string as title. -/
theorem c2_counterexample :
    (normalize_story_output "" " " "fantasy").1 = "" := by decide

/-- Witness for `c2_normalizer_title_nonempty` at a concrete input. -/
theorem c2_witness :
    ¬("short prompt" ≠ "" ∧ ("short prompt" : String).length < 60 ∧ pyStrip "short prompt" = "") ∧
    (normalize_story_output "some raw output" "short prompt" "general").1 ≠ "" :=
  ⟨by decide, c2_normalizer_title_nonempty "some raw output" "short prompt" "general" (by decide)⟩

/-- The plain-text branch never returns empty content when the text it
is given is non-empty. -/
theorem plainTextFallback_snd_ne_empty (txt p g : String) (h : txt ≠ "") :
    (plainTextFallback txt p g).2 ≠ "" := by
  unfold plainTextFallback
  cases hnl : nonBlankLines txt with
  | nil => exact h
  | cons l0 rest =>
    simp only
    split
    case isTrue =>
      simp only
      split
      case isTrue => exact h
      case isFalse hr => exact hr
    case isFalse => exact h

/-- Claim C10 (corrected): whenever the whitespace-stripped,
fence-unwrapped form of the raw text is non-empty, the normalizer
returns non-empty content: the extracted JSON content field, the
unwrapped text, or (plain-text branch) the remaining lines when
non-empty, else the full unwrapped text. -/
theorem c10_content_nonempty (raw prompt genre : String)
    (h : unwrapFence (pyStrip raw) ≠ "") :
    (normalize_story_output raw prompt genre).2 ≠ "" := by
  unfold normalize_story_output
  split
  case isTrue hraw =>
    exfalso
    apply h
    rw [hraw]
    rfl
  case isFalse =>
    dsimp only
    split
    case isTrue =>
      split
      case _ kvs heq =>
        split
        case _ title0 body0 h1 h2 =>
          simp only
          split
          case isTrue => exact h
          case isFalse hb => exact hb
        case _ => exact plainTextFallback_snd_ne_empty _ _ _ h
      case _ => exact plainTextFallback_snd_ne_empty _ _ _ h
    case isFalse => exact plainTextFallback_snd_ne_empty _ _ _ h

/-- Claim C10, counterexample to the claim as stated: `"``` ```"` has a
non-empty whitespace-stripped form, yet the fence regex matches with an
all-whitespace body, so the unwrapped text is empty and the normalizer
returns empty content. -/
theorem c10_counterexample :
    pyStrip "``` ```" ≠ "" ∧
    (normalize_story_output "``` ```" "x" "general").2 = "" := by decide

/-- Witness for `c10_content_nonempty` at a concrete input. -/
theorem c10_witness :
    unwrapFence (pyStrip "plain text") ≠ "" ∧
    (normalize_story_output "plain text" "p" "g").2 ≠ "" :=
  ⟨by decide, c10_content_nonempty "plain text" "p" "g" (by decide)⟩

/-- The JSON-success path of the normalizer, in terms of the extracted
title and content. -/
theorem normalize_json_case (raw prompt genre : String)
    (kvs : List (String × PyObj)) (t0 b0 : String)
    (hraw : raw ≠ "")
    (hcond : strBegins (unwrapFence (pyStrip raw)) "\x7b" = true ∧
             strEnds (unwrapFence (pyStrip raw)) "\x7d" = true)
    (hload : jsonLoads (unwrapFence (pyStrip raw)) = some (PyObj.pyDict kvs))
    (ht : stripAsStr (pyOrChain2 (dictGet kvs "title") (dictGet kvs "story_title")) = some t0)
    (hb : stripAsStr (pyOrChain2 (dictGet kvs "content") (dictGet kvs "story")) = some b0) :
    normalize_story_output raw prompt genre =
      ((if t0 = "" ∨ isGenericTitle t0 = true then
          synthesizeTitle prompt (if b0 = "" then unwrapFence (pyStrip raw) else b0) genre
        else t0),
       if b0 = "" then unwrapFence (pyStrip raw) else b0) := by
  unfold normalize_story_output
  rw [if_neg hraw]
  dsimp only
  rw [if_pos hcond, hload]
  dsimp only
  rw [ht, hb]

/-- Claim C3 (corrected): for inputs that parse as a JSON object whose
consulted fields are strings (or absent/falsy, yielding the empty
string), the normalizer extracts the title from `title`/`story_title`
and the content from `content`/`story`; a generic or empty extracted
title is replaced by a synthesized one with the extracted content
returned unchanged; empty extracted content is replaced by the
unwrapped raw text.  When a consulted field holds a truthy non-string,
the `.strip()` call raises and the normalizer falls back to the
plain-text branch instead (see `c3_counterexample`).  Both concrete
examples of the claim evaluate as stated. -/
theorem c3_json_extraction :
    (∀ (raw prompt genre : String) (kvs : List (String × PyObj)) (t0 b0 : String),
      strBegins (unwrapFence (pyStrip raw)) "\x7b" = true →
      strEnds (unwrapFence (pyStrip raw)) "\x7d" = true →
      jsonLoads (unwrapFence (pyStrip raw)) = some (PyObj.pyDict kvs) →
      stripAsStr (pyOrChain2 (dictGet kvs "title") (dictGet kvs "story_title")) = some t0 →
      stripAsStr (pyOrChain2 (dictGet kvs "content") (dictGet kvs "story")) = some b0 →
      (b0 ≠ "" → ¬(t0 = "" ∨ isGenericTitle t0 = true) →
          normalize_story_output raw prompt genre = (t0, b0)) ∧
      (b0 ≠ "" → (t0 = "" ∨ isGenericTitle t0 = true) →
          normalize_story_output raw prompt genre = (synthesizeTitle prompt b0 genre, b0)) ∧
      (b0 = "" → (normalize_story_output raw prompt genre).2 = unwrapFence (pyStrip raw))) ∧
    normalize_story_output "\x7b\"title\":\"Untitled\",\"content\":\"Once upon a time.\"\x7d" "x" "fantasy"
      = (synthesizeTitle "x" "Once upon a time." "fantasy", "Once upon a time.") ∧
    synthesizeTitle "x" "Once upon a time." "fantasy" ≠ "Untitled" ∧
    normalize_story_output "\x7b\"title\":\"The Lost Key\",\"content\":\"A key was lost.\"\x7d" "" "general"
      = ("The Lost Key", "A key was lost.") := by
  refine ⟨?_, by decide, by decide, by decide⟩
  intro raw prompt genre kvs t0 b0 hstart hend hload ht hb
  have hraw : raw ≠ "" := by
    intro he
    rw [he] at hstart
    exact absurd hstart (by decide)
  have hcase := normalize_json_case raw prompt genre kvs t0 b0 hraw ⟨hstart, hend⟩ hload ht hb
  refine ⟨?_, ?_, ?_⟩
  · intro hb0 hnt
    rw [hcase, if_neg hb0, if_neg hnt]
  · intro hb0 hto
    rw [hcase, if_neg hb0, if_pos hto]
  · intro hb0
    rw [hcase, if_pos hb0]

/-- Claim C3, counterexample to the claim as stated: this input parses
as a JSON object whose `content` key holds the string
`"Hello world one two"`, yet the normalizer does not return it as
content (the truthy non-string under `title` raises `AttributeError`
inside the JSON branch, diverting to the plain-text fallback, which
returns the whole text as content). -/
theorem c3_counterexample :
    jsonLoads "\x7b\"title\": true, \"content\": \"Hello world one two\"\x7d" =
      some (PyObj.pyDict [("title", PyObj.pyBool true),
                          ("content", PyObj.pyStr "Hello world one two")]) ∧
    (normalize_story_output "\x7b\"title\": true, \"content\": \"Hello world one two\"\x7d"
        "" "general").2 ≠ "Hello world one two" :=
  ⟨rfl, by decide⟩

/-- Witness for `c3_json_extraction` at a concrete input. -/
theorem c3_witness :
    normalize_story_output "\x7b\"title\":\"The Lost Key\",\"content\":\"A key was lost.\"\x7d"
        "" "general" = ("The Lost Key", "A key was lost.") :=
  (c3_json_extraction.1 "\x7b\"title\":\"The Lost Key\",\"content\":\"A key was lost.\"\x7d"
      "" "general"
      [("title", PyObj.pyStr "The Lost Key"), ("content", PyObj.pyStr "A key was lost.")]
      "The Lost Key" "A key was lost." rfl rfl rfl rfl rfl).1 (by decide) (by decide)

/-- Claim C4 (confirmed): title synthesis uses the trimmed prompt
verbatim when the prompt is non-empty and under 60 characters;
otherwise the first 10 whitespace tokens of the content joined with a
trailing ellipsis when at least 3 tokens exist; otherwise the
capitalized genre followed by " Story".  The concrete example
normalizes as the claim states. -/
theorem c4_title_synthesis :
    (∀ p c g : String, p ≠ "" → p.length < 60 → synthesizeTitle p c g = pyStrip p) ∧
    (∀ p c g : String, ¬(p ≠ "" ∧ p.length < 60) → 3 ≤ (pySplit c).length →
        synthesizeTitle p c g = String.intercalate " " ((pySplit c).take 10) ++ "...") ∧
    (∀ p c g : String, ¬(p ≠ "" ∧ p.length < 60) → (pySplit c).length < 3 →
        synthesizeTitle p c g = pyCapitalize g ++ " Story") ∧
    normalize_story_output "just plain prose with no structure at all here" "short prompt" "general"
      = ("short prompt", "just plain prose with no structure at all here") := by
  refine ⟨?_, ?_, ?_, by decide⟩
  · intro p c g h1 h2
    unfold synthesizeTitle
    rw [if_pos ⟨h1, h2⟩]
  · intro p c g hnp htok
    have hc : c ≠ "" := by
      intro he
      rw [he] at htok
      exact absurd htok (by decide)
    unfold synthesizeTitle
    rw [if_neg hnp, if_pos hc, if_pos]
    rw [List.length_take]
    omega
  · intro p c g hnp hlt
    unfold synthesizeTitle
    rw [if_neg hnp]
    split
    case isTrue =>
      split
      case isTrue htk =>
        exfalso
        rw [List.length_take] at htk
        omega
      case isFalse => rfl
    case isFalse => rfl

/-- Witness for `c4_title_synthesis` at a concrete input. -/
theorem c4_witness :
    ("short prompt" : String) ≠ "" ∧ ("short prompt" : String).length < 60 ∧
    synthesizeTitle "short prompt" "whatever content" "general" = pyStrip "short prompt" :=
  ⟨by decide, by decide,
   c4_title_synthesis.1 "short prompt" "whatever content" "general" (by decide) (by decide)⟩

/-- Claim C5 (corrected): on non-JSON input the normalizer works on the
non-blank lines; a short heading-like first line becomes the title
(markers stripped, synthesized if empty or generic) and the remaining
lines joined by newlines become the content WHEN that join is
non-empty — when the heading is the only non-blank line, the full
unwrapped text is used as content instead (see `c5_counterexample`);
without a heading-like first line a title is synthesized from the full
text and the full text is the content.  The concrete example evaluates
as the claim states. -/
theorem c5_plaintext_branch :
    (∀ raw p g : String, raw ≠ "" →
      (strBegins (unwrapFence (pyStrip raw)) "\x7b" = false ∨
       strEnds (unwrapFence (pyStrip raw)) "\x7d" = false ∨
       jsonLoads (unwrapFence (pyStrip raw)) = Option.none) →
      normalize_story_output raw p g = plainTextFallback (unwrapFence (pyStrip raw)) p g) ∧
    (∀ txt p g l0 : String, ∀ rest : List String, nonBlankLines txt = l0 :: rest →
      (pyStrip l0).length < 100 → isHeadingLine (pyStrip l0) = true →
      pyStrip (String.intercalate "\n" rest) ≠ "" →
      plainTextFallback txt p g =
        ((if stripHeadingMarks (pyStrip l0) = "" ∨
             isGenericTitle (stripHeadingMarks (pyStrip l0)) = true
          then synthesizeTitle p (pyStrip (String.intercalate "\n" rest)) g
          else stripHeadingMarks (pyStrip l0)),
         pyStrip (String.intercalate "\n" rest))) ∧
    (∀ txt p g l0 : String, ∀ rest : List String, nonBlankLines txt = l0 :: rest →
      (pyStrip l0).length < 100 → isHeadingLine (pyStrip l0) = true →
      pyStrip (String.intercalate "\n" rest) = "" →
      (plainTextFallback txt p g).2 = txt) ∧
    (∀ txt p g : String, nonBlankLines txt = [] →
      plainTextFallback txt p g = (synthesizeTitle p txt g, txt)) ∧
    (∀ txt p g l0 : String, ∀ rest : List String, nonBlankLines txt = l0 :: rest →
      ¬((pyStrip l0).length < 100 ∧ isHeadingLine (pyStrip l0) = true) →
      plainTextFallback txt p g = (synthesizeTitle p txt g, txt)) ∧
    normalize_story_output "# Chapter One\nIt was dark." "" "horror"
      = ("Chapter One", "It was dark.") := by
  refine ⟨?_, ?_, ?_, ?_, ?_, by decide⟩
  · intro raw p g hraw hdisj
    unfold normalize_story_output
    rw [if_neg hraw]
    dsimp only
    split
    case isTrue hc =>
      rcases hdisj with h | h | h
      · rw [hc.1] at h
        exact absurd h (by decide)
      · rw [hc.2] at h
        exact absurd h (by decide)
      · rw [h]
    case isFalse => rfl
  · intro txt p g l0 rest hnl hlen hhead hrem
    unfold plainTextFallback
    rw [hnl]
    dsimp only
    rw [if_pos ⟨hlen, hhead⟩, if_neg hrem]
  · intro txt p g l0 rest hnl hlen hhead hrem
    unfold plainTextFallback
    rw [hnl]
    dsimp only
    rw [if_pos ⟨hlen, hhead⟩, if_pos hrem]
  · intro txt p g hnl
    unfold plainTextFallback
    rw [hnl]
  · intro txt p g l0 rest hnl hcond
    unfold plainTextFallback
    rw [hnl]
    dsimp only
    rw [if_neg hcond]

/-- Claim C5, counterexample to the claim as stated: for a heading-only
input the claim's "remaining lines joined by newlines" is the empty
string, but the normalizer returns the full text as content. -/
theorem c5_counterexample :
    nonBlankLines "# The Title" = ["# The Title"] ∧
    isHeadingLine (pyStrip "# The Title") = true ∧
    String.intercalate "\n" ([] : List String) = "" ∧
    (normalize_story_output "# The Title" "" "general").2 = "# The Title" ∧
    (normalize_story_output "# The Title" "" "general").2 ≠ "" := by decide

/-- Witness for `c5_plaintext_branch` at a concrete input. -/
theorem c5_witness :
    plainTextFallback "# Chapter One\nIt was dark." "" "horror"
      = ("Chapter One", "It was dark.") := by
  have h := c5_plaintext_branch.2.1 "# Chapter One\nIt was dark." "" "horror"
    "# Chapter One" ["It was dark."] (by decide) (by decide) (by decide) (by decide)
  rw [h]
  decide

theorem existsItem_of_readItem (store : List CosmosEntry) (itemId pk : String)
    (story : StoryDoc) (h : readItem store itemId pk = some story) :
    existsItem store itemId pk = true := by
  unfold existsItem
  unfold readItem at h
  cases hfind : store.find? (fun e => e.doc.id == itemId && e.pk == pk) with
  | none => rw [hfind] at h; exact absurd h (by simp)
  | some e => rfl

/-- Claim C1 (corrected): `delete_story` looks the record up by id
USING THE ID ITSELF as the partition key and attempts the delete
exactly once, again with the id as the partition key.  No candidate
partition-key values (configured path, `genre`, `theme`, `story_type`,
`user_id`, hardcoded fallback) are ever tried and no aggregated
multi-key error exists: a record not stored under its own id yields
404 (see `c1_counterexample`), a raising delete call yields a single
500, and on success the record stored under `(id, id)` is removed and
the best-effort-deleted image files are listed. -/
theorem c1_delete_uses_id_as_partition_key :
    (∀ (store : List CosmosEntry) (storyId : String) (fs : List String) (dr : Bool),
      readItem store storyId storyId = Option.none →
      (delete_story storyId (some store) fs dr).1
        = DeleteOutcome.httpError 404 "Story not found") ∧
    (∀ (store : List CosmosEntry) (storyId : String) (fs : List String) (story : StoryDoc),
      readItem store storyId storyId = some story →
      (delete_story storyId (some store) fs true).1
        = DeleteOutcome.httpError 500 "Internal server error") ∧
    (∀ (store : List CosmosEntry) (storyId : String) (fs : List String) (story : StoryDoc),
      readItem store storyId storyId = some story →
      (delete_story storyId (some store) fs false).2.1
          = some (removeItem store storyId storyId) ∧
      ∃ files, (delete_story storyId (some store) fs false).1
          = DeleteOutcome.ok storyId files) := by
  refine ⟨?_, ?_, ?_⟩
  · intro store storyId fs dr hread
    unfold delete_story
    dsimp only
    rw [hread]
  · intro store storyId fs story hread
    unfold delete_story
    dsimp only
    rw [hread]
    rfl
  · intro store storyId fs story hread
    unfold delete_story
    dsimp only
    rw [hread]
    dsimp only
    rw [existsItem_of_readItem store storyId storyId story hread]
    exact ⟨rfl, _, rfl⟩

/-- Claim C1, counterexample to the claim as stated: a record whose
`genre` is `"horror"`, stored under partition key `"horror"`, is NOT
deleted successfully — the handler reads and deletes only with
`partition_key = story_id`, so the lookup fails and a 404 is returned
instead of a successful delete via the `"horror"` candidate. -/
theorem c1_counterexample :
    (StoryDoc.genre { id := "s1", story_type := "text", genre := "horror" } = "horror") ∧
    (delete_story "s1"
        (some [{ pk := "horror", doc := { id := "s1", story_type := "text", genre := "horror" } }])
        [] false).1
      = DeleteOutcome.httpError 404 "Story not found" := by decide

/-- Witness for `c1_delete_uses_id_as_partition_key` at a concrete
input. -/
theorem c1_witness :
    (delete_story "s1" (some [{ pk := "s1", doc := { id := "s1", story_type := "text" } }])
        [] false).2.1
      = some (removeItem [{ pk := "s1", doc := { id := "s1", story_type := "text" } }] "s1" "s1") ∧
    ∃ files,
      (delete_story "s1" (some [{ pk := "s1", doc := { id := "s1", story_type := "text" } }])
          [] false).1
        = DeleteOutcome.ok "s1" files :=
  c1_delete_uses_id_as_partition_key.2.2
    [{ pk := "s1", doc := { id := "s1", story_type := "text" } }] "s1" []
    { id := "s1", story_type := "text" } rfl

/-- Claim C6 (code bug): the claim's behaviour is unreachable on every
path of the program, against the code's own evident intent (the
handlers' `except ContentPolicyError` branches and the request flags
they read).  The text-story handler reads `req.generate_image`, a
field `StoryCreateRequest` does not declare, so even when the
generation call succeeds it raises `AttributeError` and answers HTTP
500 — never `success: true`.  The image-story handler answers HTTP 500
whenever `generate_image` is truthy (`NameError`: the image-generation
names are never imported), so the `error_type: content_policy` marker
can never be surfaced; only with `generate_image` falsy does it
succeed, and there the persistence outcome is indeed swallowed. -/
theorem c6_secondary_failures :
    (∀ (req : StoryCreateRequest) (raw : String) (persistOk : Bool)
        (newId createdAt : String),
      create_story req (Except.ok raw) persistOk newId createdAt
        = CreateStoryResponse.httpError 500 "Story generation failed") ∧
    (∀ (fn : String) (desc : Option String) (theme length_ tone : String)
        (st sz q : Option String) (raw : String) (persistOk : Bool)
        (newId createdAt : String),
      create_story_from_image fn desc theme length_ tone true st sz q
          (Except.ok raw) persistOk newId createdAt
        = CreateStoryResponse.httpError 500 "Image story generation failed") ∧
    (∀ (fn : String) (desc : Option String) (theme length_ tone : String)
        (st sz q : Option String) (raw : String) (persistOk : Bool)
        (newId createdAt : String),
      ∃ doc,
        create_story_from_image fn desc theme length_ tone false st sz q
            (Except.ok raw) persistOk newId createdAt
          = CreateStoryResponse.ok doc ImageMeta.absent) := by
  refine ⟨?_, ?_, ?_⟩
  · intro req raw persistOk newId createdAt
    rfl
  · intro fn desc theme length_ tone st sz q raw persistOk newId createdAt
    rfl
  · intro fn desc theme length_ tone st sz q raw persistOk newId createdAt
    exact ⟨_, rfl⟩

theorem mem_upsertDoc {s : List StoryDoc} {doc d : StoryDoc} (h : d ∈ upsertDoc s doc) :
    d = doc ∨ d ∈ s := by
  unfold upsertDoc at h
  rcases List.mem_cons.mp h with h | h
  · exact Or.inl h
  · exact Or.inr (List.mem_filter.mp h).1

/-- Claim C7 (confirmed): every document in any store reachable through
the application's operations (upserts of creation-handler documents,
deletions by id — the store is append/delete only) has `word_count`
equal to the whitespace-token count of its `content`; the count is set
once at document construction and no operation recomputes or mutates
it. -/
theorem c7_word_count_invariant :
    ∀ s : List StoryDoc, ReachableStore s →
      ∀ d ∈ s, d.word_count = (pySplit d.content).length := by
  intro s hs
  induction hs with
  | empty =>
    intro d hd
    exact absurd hd (List.not_mem_nil d)
  | step hprev hstep ih =>
    intro d hd
    cases hstep with
    | upsertText req raw newId createdAt =>
      rcases mem_upsertDoc hd with rfl | hmem
      · rfl
      · exact ih d hmem
    | upsertTextWithImage req raw newId createdAt fn st sz q =>
      rcases mem_upsertDoc hd with rfl | hmem
      · rfl
      · exact ih d hmem
    | upsertImage fn desc theme tone length_ raw newId createdAt =>
      rcases mem_upsertDoc hd with rfl | hmem
      · rfl
      · exact ih d hmem
    | upsertImageWithImage fn desc theme tone length_ raw newId createdAt gfn st sz q =>
      rcases mem_upsertDoc hd with rfl | hmem
      · rfl
      · exact ih d hmem
    | deleteById storyId =>
      exact ih d (List.mem_filter.mp hd).1

/-- Witness for `c7_word_count_invariant` at a concrete reachable
store. -/
theorem c7_witness :
    (buildTextStoryDoc { prompt := "p" } "raw words here" "id1" "t0").word_count
      = (pySplit (buildTextStoryDoc { prompt := "p" } "raw words here" "id1" "t0").content).length :=
  c7_word_count_invariant _
    (ReachableStore.step ReachableStore.empty
      (StoreStep.upsertText [] { prompt := "p" } "raw words here" "id1" "t0"))
    _ (by simp [upsertDoc])

/-- Claim C8 (confirmed): the list operation reports success, returns
the total count of stored records, and returns the stored records in
`created_at`-descending order, at most `limit` of them, starting after
the first `offset` of the ordered records; when `offset ≥ total` the
page is empty while the total is unchanged. -/
theorem c8_list_pagination (docs : List StoryDoc) (limit offset : Nat) :
    (routeGetStories docs limit offset).success = true ∧
    (routeGetStories docs limit offset).total = docs.length ∧
    List.Sorted createdAtDescRel (routeGetStories docs limit offset).stories ∧
    (routeGetStories docs limit offset).stories.length ≤ limit ∧
    (∀ i : Nat, ((routeGetStories docs limit offset).stories)[i]?
        = if i < limit then (sortByCreatedAtDesc docs)[offset + i]? else Option.none) ∧
    (docs.length ≤ offset → (routeGetStories docs limit offset).stories = []) := by
  have hsorted : List.Sorted createdAtDescRel (sortByCreatedAtDesc docs) :=
    List.sorted_insertionSort createdAtDescRel docs
  refine ⟨rfl, rfl, ?_, ?_, ?_, ?_⟩
  · exact List.Pairwise.sublist
      ((List.take_sublist _ _).trans (List.drop_sublist _ _)) hsorted
  · calc ((List.take limit ((sortByCreatedAtDesc docs).drop offset))).length
        = min limit ((sortByCreatedAtDesc docs).drop offset).length := List.length_take _ _
      _ ≤ limit := min_le_left _ _
  · intro i
    show (((sortByCreatedAtDesc docs).drop offset).take limit)[i]? = _
    rw [List.getElem?_take]
    by_cases hi : i < limit
    · rw [if_pos hi, if_pos hi, List.getElem?_drop]
    · rw [if_neg hi, if_neg hi]
  · intro hle
    show (((sortByCreatedAtDesc docs).drop offset).take limit) = []
    have hnil : (sortByCreatedAtDesc docs).drop offset = [] := by
      apply List.drop_eq_nil_of_le
      rw [sortByCreatedAtDesc, List.length_insertionSort]
      exact hle
    rw [hnil, List.take_nil]

/-- Witness for `c8_list_pagination` at a concrete input
(`offset ≥ total`). -/
theorem c8_witness :
    (routeGetStories [{ id := "a", story_type := "text", created_at := "2024" }] 10 5).stories
        = [] ∧
    (routeGetStories [{ id := "a", story_type := "text", created_at := "2024" }] 10 5).total = 1 :=
  ⟨(c8_list_pagination [{ id := "a", story_type := "text", created_at := "2024" }] 10 5).2.2.2.2.2
      (by decide),
   (c8_list_pagination [{ id := "a", story_type := "text", created_at := "2024" }] 10 5).2.1⟩

/-- Claim C9 (corrected): the degraded-to-empty/zero successful
responses occur only when the store CLIENT IS NOT CONFIGURED (the
container handle is unset); an error raised by an actual store query
makes both read paths return a `success: false` payload with an error
message (still an HTTP 200 JSON body, not an exception), not a
successful empty/zero result. -/
theorem c9_degraded_reads :
    get_stories_v1 Option.none = ListResult.ok [] ∧
    story_stats Option.none = StatsResult.ok 0 0 0 0 ∧
    (∀ e : String, get_stories_v1 (some (Except.error e))
        = ListResult.failed "Failed to retrieve stories") ∧
    (∀ e : String, story_stats (some (Except.error e))
        = StatsResult.failed "stats query failed") :=
  ⟨rfl, rfl, fun _ => rfl, fun _ => rfl⟩

/-- Claim C9, counterexample to the claim as stated: a store error
during the stats query (resp. the list query) yields the
`success: false` payload, not the claimed successful all-zero (resp.
empty-list) response. -/
theorem c9_counterexample :
    story_stats (some (Except.error "ConnectionError"))
        = StatsResult.failed "stats query failed" ∧
    story_stats (some (Except.error "ConnectionError")) ≠ StatsResult.ok 0 0 0 0 ∧
    get_stories_v1 (some (Except.error "QueryError"))
        = ListResult.failed "Failed to retrieve stories" ∧
    get_stories_v1 (some (Except.error "QueryError")) ≠ ListResult.ok [] := by
  refine ⟨rfl, ?_, rfl, ?_⟩ <;> decide
